import Mathlib

/-!
Shallow embedding of the modal-display coordination logic of the blog:
the file src/components/modal.js (the useModal hook, the static
MODAL_DATA content table and the ModalInfo view with its click handlers)
and the file src/components/layout.js (the page shell that reads the
source query parameter and reacts to it).

React state and effect semantics are modelled as settled-state
transitions: a useState setter bails out when the new value equals the
current one (so effects keyed on that value do not re-run), and a
useEffect with a dependency list re-runs exactly when a dependency
changed since the last render.  All state transitions are synchronous,
matching the single-threaded event-loop model of the code.
-/

namespace Blog

/-- One entry of the static content table (a MODAL_DATA item in
modal.js): a type, a title and a description. -/
structure Entry where
  type : String
  title : String
  description : String
deriving DecidableEq, Repr

def EMAIL_CONFIRMATION : String := "email-confirmation"

def CONFIRMATION_SUCCESS : String := "confirmation-success"

/-- The static, immutable content table from modal.js. -/
def MODAL_DATA : List Entry :=
  [ { type := EMAIL_CONFIRMATION
    , title := "Success!"
    , description := "Now check your email to confirm your subscription" }
  , { type := CONFIRMATION_SUCCESS
    , title := "Done!"
    , description := "Thanks for subscribing!" } ]

/-- The settled state of the useModal hook: `isShow` from usePortal
(initially false, defaultShow false), `type` from useState null and
`info` from useState after the mount effects have settled (the mount
effect sets `info` to undefined, since filtering MODAL_DATA by a null
type yields the empty list and spreading it into setInfo passes no
argument).  An absent value (null or undefined, and the initial empty
object whose title is undefined) is `none`. -/
structure ModalState where
  isShow : Bool
  type : Option String
  info : Option Entry
deriving DecidableEq, Repr

/-- The settled state right after mount. -/
def initialModalState : ModalState :=
  { isShow := false, type := none, info := none }

/-- The body of the first effect in useModal: MODAL_DATA filtered by
strict equality of the item type against the recorded type, spread into
setInfo, which yields the single matching entry or undefined. -/
def lookupInfo (t : Option String) : Option Entry :=
  (MODAL_DATA.filter (fun item => some item.type == t)).head?

/-- JavaScript truthiness of the optionally chained title as tested by
the second effect: truthy exactly when `info` is an object carrying a
non-empty title string. -/
def infoTruthyTitle (i : Option Entry) : Bool :=
  match i with
  | some e => e.title != ""
  | none => false

/-- setType together with the settled reaction of the two effects: if the
recorded type already equals the argument, the state setter bails out and
no effect re-runs; otherwise the type-keyed effect recomputes `info`,
and when `info` actually changed the info-keyed effect runs and forces
visibility when the title is truthy. -/
def setType (s : ModalState) (k : String) : ModalState :=
  if s.type == some k then s
  else
    let s1 : ModalState := { s with type := some k }
    let newInfo := lookupInfo (some k)
    if newInfo == s1.info then { s1 with info := newInfo }
    else
      let s2 : ModalState := { s1 with info := newInfo }
      if infoTruthyTitle s2.info then { s2 with isShow := true } else s2

/-- The show operation from usePortal: forces visibility to true. -/
def show' (s : ModalState) : ModalState := { s with isShow := true }

/-- The hide operation from usePortal: forces visibility to false. -/
def hide (s : ModalState) : ModalState := { s with isShow := false }

/-- What the Modal component renders: the portal contents are observable
exactly when `isShow` holds, and ModalInfo receives the optionally
chained title and description. -/
structure ModalRender where
  visible : Bool
  title : Option String
  description : Option String
deriving DecidableEq, Repr

def render (s : ModalState) : ModalRender :=
  { visible := s.isShow, title := s.info.map Entry.title
  , description := s.info.map Entry.description }

/-- Settled states reachable from the mounted controller through the
exposed operations setType, show and hide. -/
inductive Reachable : ModalState → Prop
  | init : Reachable initialModalState
  | step_setType (s : ModalState) (k : String) : Reachable s → Reachable (setType s k)
  | step_show (s : ModalState) : Reachable s → Reachable (show' s)
  | step_hide (s : ModalState) : Reachable s → Reachable (hide s)

/-- Elements of the ModalInfo JSX tree: the backdrop (the outer div with
id modal), the dialog container, the bar holding the close button, the
close button and the span inside it, the content container, the header,
the paragraph, and the OK button. -/
inductive ModalElem
  | backdrop
  | container
  | bar
  | closeButton
  | closeSpan
  | contentContainer
  | headerElem
  | contentElem
  | okButton
deriving DecidableEq, Repr

/-- The DOM id of each element as read from the click target: only the
backdrop carries the id "modal"; every other element has no id attribute,
so reading its id property yields the empty string. -/
def elemId : ModalElem → String
  | ModalElem.backdrop => "modal"
  | _ => ""

/-- The handleClickBackdrop handler in ModalInfo: destructures the id of
the click target and hides exactly when it is "modal". -/
def handleClickBackdrop (s : ModalState) (targetId : String) : ModalState :=
  if targetId == "modal" then hide s else s

/-- The click path from an element up through its ancestors, transcribed
from the JSX nesting of ModalInfo; React synthetic click events bubble
along this path. -/
def bubblePath : ModalElem → List ModalElem
  | ModalElem.backdrop => [ModalElem.backdrop]
  | ModalElem.container => [ModalElem.container, ModalElem.backdrop]
  | ModalElem.bar => [ModalElem.bar, ModalElem.container, ModalElem.backdrop]
  | ModalElem.closeButton =>
      [ModalElem.closeButton, ModalElem.bar, ModalElem.container, ModalElem.backdrop]
  | ModalElem.closeSpan =>
      [ModalElem.closeSpan, ModalElem.closeButton, ModalElem.bar, ModalElem.container,
        ModalElem.backdrop]
  | ModalElem.contentContainer =>
      [ModalElem.contentContainer, ModalElem.container, ModalElem.backdrop]
  | ModalElem.headerElem =>
      [ModalElem.headerElem, ModalElem.contentContainer, ModalElem.container,
        ModalElem.backdrop]
  | ModalElem.contentElem =>
      [ModalElem.contentElem, ModalElem.contentContainer, ModalElem.container,
        ModalElem.backdrop]
  | ModalElem.okButton =>
      [ModalElem.okButton, ModalElem.contentContainer, ModalElem.container,
        ModalElem.backdrop]

/-- The onClick handler attached to one element, applied while a click
whose target is `target` bubbles past it: the backdrop runs
handleClickBackdrop, the close button and the OK button run hide, and the
other elements have no handler. -/
def elemHandler (el : ModalElem) (target : ModalElem) (s : ModalState) : ModalState :=
  match el with
  | ModalElem.backdrop => handleClickBackdrop s (elemId target)
  | ModalElem.closeButton => hide s
  | ModalElem.okButton => hide s
  | _ => s

/-- A full click on `target`: every handler on the bubble path fires, in
bubbling order, each seeing the original target. -/
def dispatchClick (s : ModalState) (target : ModalElem) : ModalState :=
  (bubblePath target).foldl (fun st el => elemHandler el target st) s

/-- A browser location: a path and a query string (the query string keeps
its leading question mark when non-empty, as in location.search). -/
structure Url where
  pathname : String
  search : String
deriving DecidableEq, Repr

/-- Splits a character list at every occurrence of the separator; the
result always has at least one group. -/
def splitOnChar (c : Char) : List Char → List (List Char)
  | [] => [[]]
  | a :: rest =>
    match splitOnChar c rest with
    | [] => if a = c then [[], []] else [[a]]
    | g :: gs => if a = c then [] :: g :: gs else (a :: g) :: gs

/-- One key-value field as the qs library parses it: the part before the
first equals sign is the key and everything after it (further equals
signs kept) is the value; a field with no equals sign maps to the empty
string. -/
def parseField (kv : List Char) : String × String :=
  match splitOnChar '=' kv with
  | [] => ("", "")
  | [k] => (String.mk k, "")
  | k :: rest => (String.mk k, String.mk (List.intercalate [ '=' ] rest))

/-- The qs parse call with ignoreQueryPrefix set, restricted to the shape
the shell reads: strips one leading question mark, splits the rest into
ampersand-separated fields and drops empty fields. -/
def parseQuery (search : String) : List (String × String) :=
  let body := if search.data.head? = some '?' then search.data.tail else search.data
  ((splitOnChar '&' body).filter (fun g => g ≠ [])).map parseField

/-- The source value the shell destructures from the parsed query;
`none` when the parameter is absent. -/
def getSource (search : String) : Option String :=
  (parseQuery search).lookup "source"

/-- The recognized marker set QUERIES from layout.js. -/
def QUERIES : List String := [EMAIL_CONFIRMATION, CONFIRMATION_SUCCESS]

/-- The marker-free site root the shell navigates to. -/
def rootUrl : Url := { pathname := "/", search := "" }

/-- Modelled after the navigate function of the site framework (gatsby,
re-exporting the reach-router navigate): it pushes the destination onto
the history stack, and only replaces the top entry when the replace
option is passed.  The call in layout.js passes no options, so `replace`
is false.  The history stack keeps the current location first. -/
def navigate (h : List Url) (dest : Url) (replace : Bool) : List Url :=
  if replace then dest :: h.tail else dest :: h

def currentUrl (h : List Url) : Option Url := h.head?

/-- The body of the effect in layout.js, applied to the source value it
closed over: when that value is a recognized marker it records it with
setType and navigates to the root, otherwise it does nothing.  The
boolean records whether the body invoked setType (and navigate). -/
def layoutEffect (ms : ModalState) (h : List Url) (source : Option String) :
    ModalState × List Url × Bool :=
  match source with
  | some s =>
      if QUERIES.any (fun query => query == s) then
        (setType ms s, navigate h rootUrl false, true)
      else (ms, h, false)
  | none => (ms, h, false)

/-- The page shell as observed across render passes: the modal state, the
browser history, the dependency value the effect saw at its last run
(`none` before the first render) and how many times the shell has called
setType. -/
structure ShellState where
  ms : ModalState
  history : List Url
  prevDep : Option (Option String)
  setTypeCalls : Nat
deriving DecidableEq, Repr

/-- One render pass of the shell observing query value `source`: the
effect (whose dependency list holds `source` and the stable setType
reference) runs exactly when `source` differs from the value seen at its
previous run, and its body is layoutEffect. -/
def renderPass (t : ShellState) (source : Option String) : ShellState :=
  let fires :=
    match t.prevDep with
    | none => true
    | some prev => prev != source
  if fires then
    let r := layoutEffect t.ms t.history source
    { ms := r.1, history := r.2.1, prevDep := some source
    , setTypeCalls := t.setTypeCalls + (if r.2.2 then 1 else 0) }
  else { t with prevDep := some source }

def runRenders (t : ShellState) (sources : List (Option String)) : ShellState :=
  sources.foldl renderPass t

/-- The URL the form endpoint redirects back to: the site root carrying
the email-confirmation marker. -/
def markerUrl : Url := { pathname := "/", search := "?source=email-confirmation" }

/-- The shell state on loading markerUrl, before the first render. -/
def initialShell : ShellState :=
  { ms := initialModalState, history := [markerUrl], prevDep := none
  , setTypeCalls := 0 }

/-!
Helper lemmas about setType, the lookup and the reachable settled
states, shared by the claim theorems below.
-/

theorem setType_self (s : ModalState) (k : String) (h : s.type = some k) :
    setType s k = s := by
  simp [setType, h]

theorem setType_type (s : ModalState) (k : String) : (setType s k).type = some k := by
  by_cases h1 : s.type = some k
  · rw [setType_self s k h1, h1]
  · by_cases h2 : lookupInfo (some k) = s.info
    · simp [setType, h1, h2]
    · by_cases h3 : infoTruthyTitle (lookupInfo (some k)) = true
      · simp [setType, h1, h2, h3]
      · simp [setType, h1, h2, h3]

theorem setType_info (s : ModalState) (k : String) :
    (setType s k).info = if s.type = some k then s.info else lookupInfo (some k) := by
  by_cases h1 : s.type = some k
  · rw [setType_self s k h1, if_pos h1]
  · rw [if_neg h1]
    by_cases h2 : lookupInfo (some k) = s.info
    · simp [setType, h1, h2]
    · by_cases h3 : infoTruthyTitle (lookupInfo (some k)) = true
      · simp [setType, h1, h2, h3]
      · simp [setType, h1, h2, h3]

theorem setType_isShow_of_lookup_none (s : ModalState) (k : String)
    (h : lookupInfo (some k) = none) : (setType s k).isShow = s.isShow := by
  by_cases h1 : s.type = some k
  · rw [setType_self s k h1]
  · by_cases h2 : lookupInfo (some k) = s.info
    · simp [setType, h1, h2]
    · simp [setType, h1, h2, h, infoTruthyTitle]

/-- In every settled reachable state, `info` is exactly the lookup of the
recorded type in the static content table: the two-stage reactive chain
never leaves them out of sync once the effects have settled. -/
theorem reachable_info_consistent (s : ModalState) (h : Reachable s) :
    s.info = lookupInfo s.type := by
  induction h with
  | init => decide
  | step_setType s k _ ih =>
      rw [setType_type, setType_info]
      split
      · rename_i hk
        rw [ih, hk]
      · rfl
  | step_show s _ ih => simpa [show'] using ih
  | step_hide s _ ih => simpa [hide] using ih

theorem lookupInfo_of_mem (k : String) (e : Entry) (he : e ∈ MODAL_DATA)
    (hk : e.type = k) : lookupInfo (some k) = some e := by
  subst hk
  simp only [ MODAL_DATA, List.mem_cons, List.not_mem_nil, or_false] at he
  rcases he with rfl | rfl <;> decide

theorem lookupInfo_none_of_no_match (k : String)
    (h : ∀ e ∈ MODAL_DATA, e.type ≠ k) : lookupInfo (some k) = none := by
  have hfil : MODAL_DATA.filter (fun item => some item.type == some k) = [] := by
    rw [List.filter_eq_nil_iff]
    intro e he
    simpa using h e he
  rw [lookupInfo, hfil]
  rfl

theorem renderPass_fixed (t : ShellState) (source : Option String)
    (h : t.prevDep = some source) : renderPass t source = t := by
  simp only [renderPass, h, bne_self_eq_false]
  rw [if_neg (by simp)]
  rw [← h]

theorem runRenders_fixed (t : ShellState) (source : Option String) (n : Nat)
    (h : t.prevDep = some source) :
    runRenders t (List.replicate n source) = t := by
  induction n with
  | zero => rfl
  | succ n ih =>
      rw [List.replicate_succ]
      unfold runRenders
      rw [List.foldl_cons, renderPass_fixed t source h]
      exact ih

/-!
Claim theorems.
-/

/-- C1: for each of the two valid keys, setType followed by a render
makes the modal visible with the text of that entry: EMAIL_CONFIRMATION
yields the title "Success!" with its subscription description, and
CONFIRMATION_SUCCESS yields the title "Done!" with "Thanks for
subscribing!". -/
theorem c1_valid_keys_render :
    render (setType initialModalState EMAIL_CONFIRMATION) =
      { visible := true, title := some "Success!"
      , description := some "Now check your email to confirm your subscription" } ∧
    render (setType initialModalState CONFIRMATION_SUCCESS) =
      { visible := true, title := some "Done!"
      , description := some "Thanks for subscribing!" } := by
  decide

/-- C2: for every key outside the two recognized ones, setType on a
hidden reachable controller is a silent no-op: visibility stays false and
`info` ends up unset; no branch of the code can raise an error here,
since the lookup merely yields no entry. -/
theorem c2_unknown_key_silent_noop (s : ModalState) (K : String)
    (hr : Reachable s) (hhid : s.isShow = false)
    (h : K ∉ ([EMAIL_CONFIRMATION, CONFIRMATION_SUCCESS] : List String)) :
    (setType s K).isShow = false ∧ (setType s K).info = none := by
  simp only [List.mem_cons, not_or] at h
  obtain ⟨h1, h2, -⟩ := h
  have hno : lookupInfo (some K) = none := by
    refine lookupInfo_none_of_no_match K ?_
    intro e he
    simp only [ MODAL_DATA, List.mem_cons, List.not_mem_nil, or_false] at he
    rcases he with rfl | rfl
    · exact fun hc => h1 hc.symm
    · exact fun hc => h2 hc.symm
  refine ⟨by rw [setType_isShow_of_lookup_none s K hno, hhid], ?_⟩
  rw [setType_info]
  split
  · rename_i hk
    rw [reachable_info_consistent s hr, hk, hno]
  · exact hno

theorem c2_unknown_key_silent_noop_witness :
    (initialModalState.isShow = false ∧
      "subscribe-now" ∉ ([EMAIL_CONFIRMATION, CONFIRMATION_SUCCESS] : List String)) ∧
    ((setType initialModalState "subscribe-now").isShow = false ∧
      (setType initialModalState "subscribe-now").info = none) :=
  ⟨by decide,
    c2_unknown_key_silent_noop initialModalState "subscribe-now"
      Reachable.init (by decide) (by decide)⟩

/-- C3 as stated is false: on consuming the recognized marker the shell
calls navigate with the root path and no replace option, which pushes a
new navigation entry; the old marker-bearing entry stays in the history
behind the new root entry instead of being replaced by it. -/
theorem c3_counterexample :
    getSource markerUrl.search = some EMAIL_CONFIRMATION ∧
    (layoutEffect initialModalState [markerUrl]
      (some EMAIL_CONFIRMATION)).2.1 ≠ [rootUrl] ∧
    (layoutEffect initialModalState [markerUrl]
      (some EMAIL_CONFIRMATION)).2.1 = [rootUrl, markerUrl] := by
  decide

/-- C3 (amended): on consuming a recognized marker the shell pushes a new
navigation entry holding the marker-free root path (rather than replacing
the current entry), so the displayed URL is normalized to the site root
with no query string, and reloading the displayed URL does not re-trigger
the modal since its query carries no source parameter. -/
theorem c3_push_normalizes_url (ms ms2 : ModalState) (h h2 : List Url)
    (m : String) (hm : m ∈ QUERIES) :
    (layoutEffect ms h (some m)).2.1 = rootUrl :: h ∧
    currentUrl (layoutEffect ms h (some m)).2.1 = some rootUrl ∧
    rootUrl.search = "" ∧
    getSource rootUrl.search = none ∧
    layoutEffect ms2 h2 (getSource rootUrl.search) = (ms2, h2, false) := by
  have hq : (QUERIES.any fun query => query == m) = true := by
    rw [List.any_eq_true]
    exact ⟨m, hm, by simp⟩
  refine ⟨?_, ?_, rfl, by decide, ?_⟩
  · simp [layoutEffect, hq, navigate]
  · simp [layoutEffect, hq, navigate, currentUrl]
  · have hnone : getSource rootUrl.search = none := by decide
    rw [hnone]
    rfl

theorem c3_push_normalizes_url_witness :
    (EMAIL_CONFIRMATION ∈ QUERIES) ∧
    ((layoutEffect initialModalState [markerUrl]
        (some EMAIL_CONFIRMATION)).2.1 = rootUrl :: [markerUrl] ∧
      currentUrl (layoutEffect initialModalState [markerUrl]
        (some EMAIL_CONFIRMATION)).2.1 = some rootUrl ∧
      rootUrl.search = "" ∧
      getSource rootUrl.search = none ∧
      layoutEffect initialModalState [rootUrl, markerUrl]
        (getSource rootUrl.search) =
          (initialModalState, [rootUrl, markerUrl], false)) :=
  ⟨by decide,
    c3_push_normalizes_url initialModalState initialModalState
      [markerUrl] [rootUrl, markerUrl] EMAIL_CONFIRMATION (by decide)⟩

/-- C4: over any positive number of render passes that all observe the
marker "email-confirmation", the shell calls setType exactly once (on the
first pass, when the dependency value changes from unseen to the marker)
and navigates exactly once; the remaining passes change nothing. -/
theorem c4_marker_consumed_once (n : Nat) (hn : 1 ≤ n) :
    runRenders initialShell (List.replicate n (some EMAIL_CONFIRMATION)) =
      { ms := setType initialModalState EMAIL_CONFIRMATION
      , history := [rootUrl, markerUrl]
      , prevDep := some (some EMAIL_CONFIRMATION)
      , setTypeCalls := 1 } := by
  obtain ⟨m, rfl⟩ : ∃ m, n = m + 1 := ⟨n - 1, (Nat.succ_pred_eq_of_pos hn).symm⟩
  rw [List.replicate_succ]
  unfold runRenders
  rw [List.foldl_cons]
  have h1 : renderPass initialShell (some EMAIL_CONFIRMATION) =
      { ms := setType initialModalState EMAIL_CONFIRMATION
      , history := [rootUrl, markerUrl]
      , prevDep := some (some EMAIL_CONFIRMATION)
      , setTypeCalls := 1 } := by decide
  rw [h1]
  exact runRenders_fixed _ _ m rfl

theorem c4_marker_consumed_once_witness :
    1 ≤ 3 ∧
    runRenders initialShell (List.replicate 3 (some EMAIL_CONFIRMATION)) =
      { ms := setType initialModalState EMAIL_CONFIRMATION
      , history := [rootUrl, markerUrl]
      , prevDep := some (some EMAIL_CONFIRMATION)
      , setTypeCalls := 1 } :=
  ⟨by decide, c4_marker_consumed_once 3 (by decide)⟩

/-- C5: in every settled ModalState reachable through setType, show and
hide, `info` is consistent with the recorded type: if the recorded key
matches an entry of the static content table then `info` is that unique
entry; if it matches no entry then `info` is unset; and setType with a
matchless key never takes a hidden controller to visible. -/
theorem c5_content_consistency (s : ModalState) (h : Reachable s) :
    (∀ k e, s.type = some k → e ∈ MODAL_DATA → e.type = k → s.info = some e) ∧
    (∀ k, s.type = some k → (∀ e ∈ MODAL_DATA, e.type ≠ k) → s.info = none) ∧
    (∀ k, s.isShow = false → (∀ e ∈ MODAL_DATA, e.type ≠ k) →
      (setType s k).isShow = false) := by
  have hinfo := reachable_info_consistent s h
  refine ⟨?_, ?_, ?_⟩
  · intro k e hk he hek
    rw [hinfo, hk, lookupInfo_of_mem k e he hek]
  · intro k hk hno
    rw [hinfo, hk, lookupInfo_none_of_no_match k hno]
  · intro k hs hno
    rw [setType_isShow_of_lookup_none s k (lookupInfo_none_of_no_match k hno), hs]

theorem c5_content_consistency_witness :
    (setType initialModalState EMAIL_CONFIRMATION).info =
      some { type := EMAIL_CONFIRMATION, title := "Success!"
           , description := "Now check your email to confirm your subscription" } ∧
    (setType initialModalState "launch-party").info = none ∧
    (setType initialModalState "launch-party").isShow = false :=
  ⟨(c5_content_consistency _ (Reachable.step_setType _ _ Reachable.init)).1
      EMAIL_CONFIRMATION _ (by decide) (by decide) (by decide),
   (c5_content_consistency _ (Reachable.step_setType _ _ Reachable.init)).2.1
      "launch-party" (by decide) (by decide),
   (c5_content_consistency _ Reachable.init).2.2
      "launch-party" (by decide) (by decide)⟩

/-- C6 as stated is false: the OK button is an element inside the inner
dialog container, yet clicking it while the modal is visible changes
visibility to false, because its own onClick handler is hide. -/
theorem c6_counterexample :
    (setType initialModalState EMAIL_CONFIRMATION).isShow = true ∧
    ModalElem.container ∈ bubblePath ModalElem.okButton ∧
    (dispatchClick (setType initialModalState EMAIL_CONFIRMATION)
      ModalElem.okButton).isShow = false := by
  decide

/-- C6 (amended): while the modal is visible, a click targeting the
backdrop element itself sets visibility to false, and a click targeting
the inner dialog container, or any element inside it other than the
close and OK buttons and their contents, leaves the state unchanged. -/
theorem c6_backdrop_click_dismisses (s : ModalState) (t : ModalElem)
    (hvis : s.isShow = true)
    (hin : ModalElem.container ∈ bubblePath t)
    (hc : ModalElem.closeButton ∉ bubblePath t)
    (ho : ModalElem.okButton ∉ bubblePath t) :
    (dispatchClick s ModalElem.backdrop).isShow = false ∧
    dispatchClick s t = s := by
  constructor
  · simp [dispatchClick, bubblePath, elemHandler, handleClickBackdrop, elemId, hide]
  · cases t <;>
      simp_all [dispatchClick, bubblePath, elemHandler, handleClickBackdrop, elemId]

theorem c6_backdrop_click_dismisses_witness :
    ((setType initialModalState EMAIL_CONFIRMATION).isShow = true ∧
      ModalElem.container ∈ bubblePath ModalElem.contentElem ∧
      ModalElem.closeButton ∉ bubblePath ModalElem.contentElem ∧
      ModalElem.okButton ∉ bubblePath ModalElem.contentElem) ∧
    ((dispatchClick (setType initialModalState EMAIL_CONFIRMATION)
        ModalElem.backdrop).isShow = false ∧
      dispatchClick (setType initialModalState EMAIL_CONFIRMATION)
        ModalElem.contentElem = setType initialModalState EMAIL_CONFIRMATION) :=
  ⟨by decide,
    c6_backdrop_click_dismisses (setType initialModalState EMAIL_CONFIRMATION)
      ModalElem.contentElem (by decide) (by decide) (by decide) (by decide)⟩

/-- C7: while the modal is visible, clicking the close button or clicking
the OK button sets visibility to false. -/
theorem c7_buttons_hide (s : ModalState) (hvis : s.isShow = true) :
    (dispatchClick s ModalElem.closeButton).isShow = false ∧
    (dispatchClick s ModalElem.okButton).isShow = false := by
  simp [dispatchClick, bubblePath, elemHandler, handleClickBackdrop, elemId, hide]

theorem c7_buttons_hide_witness :
    ((setType initialModalState CONFIRMATION_SUCCESS).isShow = true) ∧
    ((dispatchClick (setType initialModalState CONFIRMATION_SUCCESS)
        ModalElem.closeButton).isShow = false ∧
      (dispatchClick (setType initialModalState CONFIRMATION_SUCCESS)
        ModalElem.okButton).isShow = false) :=
  ⟨by decide, c7_buttons_hide (setType initialModalState CONFIRMATION_SUCCESS) (by decide)⟩

/-- C8: when the observed query value is absent or not a recognized
marker, the shell takes no action: the effect body leaves the modal state
and the history untouched and calls neither setType nor navigate; a
render pass records only the observed dependency value. -/
theorem c8_unrecognized_no_action (t : ShellState) (source : Option String)
    (hsrc : source ∉ QUERIES.map some) :
    layoutEffect t.ms t.history source = (t.ms, t.history, false) ∧
    renderPass t source = { t with prevDep := some source } := by
  have heff : layoutEffect t.ms t.history source = (t.ms, t.history, false) := by
    match source with
    | none => rfl
    | some s =>
        simp only [ QUERIES, List.map, List.mem_cons, List.not_mem_nil, or_false,
          not_or] at hsrc
        obtain ⟨h1, h2⟩ := hsrc
        simp only [layoutEffect, QUERIES, List.any_cons, List.any_nil]
        rw [if_neg]
        simp only [Bool.or_eq_true, beq_iff_eq, not_or]
        exact ⟨fun h => h1 (by rw [h]), fun h => h2 (by rw [h]), by simp⟩
  refine ⟨heff, ?_⟩
  unfold renderPass
  cases hp : t.prevDep with
  | none => simp [heff]
  | some prev =>
      by_cases hfires : prev != source
      · simp [hfires, heff]
      · simp [hfires]

theorem c8_unrecognized_no_action_witness :
    ((some "utm-campaign" : Option String) ∉ QUERIES.map some) ∧
    (layoutEffect initialShell.ms initialShell.history (some "utm-campaign") =
      (initialShell.ms, initialShell.history, false) ∧
    renderPass initialShell (some "utm-campaign") =
      { initialShell with prevDep := some (some "utm-campaign") }) :=
  ⟨by decide, c8_unrecognized_no_action initialShell (some "utm-campaign") (by decide)⟩

/-- C9: once setType with key `k` has made the modal visible and hide has
dismissed it, calling setType again with the same already-recorded key
bails out (the recorded value did not change, so neither effect re-runs)
and visibility stays false. -/
theorem c9_repeat_key_stays_hidden (k : String)
    (hvis : (setType initialModalState k).isShow = true) :
    (setType (hide (setType initialModalState k)) k).isShow = false := by
  have ht : (hide (setType initialModalState k)).type = some k :=
    setType_type initialModalState k
  rw [setType_self _ _ ht]
  rfl

theorem c9_repeat_key_stays_hidden_witness :
    (setType initialModalState EMAIL_CONFIRMATION).isShow = true ∧
    (setType (hide (setType initialModalState EMAIL_CONFIRMATION))
      EMAIL_CONFIRMATION).isShow = false :=
  ⟨by decide, c9_repeat_key_stays_hidden EMAIL_CONFIRMATION (by decide)⟩

/-- C10: when the modal is visible with a valid entry and setType is then
called with a key matching no entry, visibility stays true while the
rendered title and description both become undefined: the content is
cleared but no hidden transition occurs. -/
theorem c10_unknown_key_clears_content (k j : String)
    (hvis : (setType initialModalState k).isShow = true)
    (hj : lookupInfo (some j) = none) :
    (setType (setType initialModalState k) j).isShow = true ∧
    (render (setType (setType initialModalState k) j)).title = none ∧
    (render (setType (setType initialModalState k) j)).description = none := by
  have hjk : j ≠ k := by
    intro h
    subst h
    rw [setType_isShow_of_lookup_none initialModalState j hj] at hvis
    exact absurd hvis (by decide)
  have hshow : (setType (setType initialModalState k) j).isShow = true := by
    rw [setType_isShow_of_lookup_none (setType initialModalState k) j hj, hvis]
  have hinfo : (setType (setType initialModalState k) j).info = none := by
    rw [setType_info, if_neg, hj]
    rw [setType_type initialModalState k]
    simpa using fun h => hjk h.symm
  exact ⟨hshow, by simp [render, hinfo], by simp [render, hinfo]⟩

theorem c10_unknown_key_clears_content_witness :
    ((setType initialModalState CONFIRMATION_SUCCESS).isShow = true ∧
      lookupInfo (some "see-you-later") = none) ∧
    ((setType (setType initialModalState CONFIRMATION_SUCCESS)
        "see-you-later").isShow = true ∧
      (render (setType (setType initialModalState CONFIRMATION_SUCCESS)
        "see-you-later")).title = none ∧
      (render (setType (setType initialModalState CONFIRMATION_SUCCESS)
        "see-you-later")).description = none) :=
  ⟨by decide,
    c10_unknown_key_clears_content CONFIRMATION_SUCCESS "see-you-later"
      (by decide) (by decide)⟩

end Blog
